import Mathlib

/-!
# Verification of the WeatherArena tile-generation core

Shallow embedding of the tile-serving path of the WeatherArena backend:

* `TileMath` — `backend/app/services/tiles.py`, `TileService.pixels_to_meters`
  and `TileService.tile_bounds` (pure float arithmetic, modelled over `ℝ`);
* `GridCache` — `backend/app/services/weather.py`, `WeatherService.get_model_grid`
  and the module-level `GRID_CACHE` dictionary (modelled as an association list
  threaded through an explicit state, with a counter recording how many times
  the upstream fetch collaborator was invoked);
* field resolution, unit normalization and the HTTP tile route —
  `backend/app/routers/tiles.py`, `get_tile`;
* the image-encoding tail of `TileService.generate_tile` (matplotlib `savefig`
  and PIL `resize`/`save` are external libraries; they are modelled by their
  documented contracts, with the engine-determined native canvas size left as
  an input).

Grid values are modelled as rationals (`ℚ`): the Python floats carry finite
values wherever the specified behaviour is exercised, and every claim at stake
is about exact arithmetic relations, not rounding.
-/

namespace WeatherArena

/-! ## TileMath (`backend/app/services/tiles.py`) -/

/-- Embeds `TileService.pixels_to_meters` (tiles.py lines 79-85):
`res = (2 * math.pi * 6378137) / (256 * 2**zoom)`,
`origin_shift = 2 * math.pi * 6378137 / 2.0`,
`mx = px * res - origin_shift`, `my = origin_shift - py * res`. -/
noncomputable def pixels_to_meters (px py : ℝ) (zoom : ℕ) : ℝ × ℝ :=
  let res : ℝ := (2 * Real.pi * 6378137) / (256 * 2 ^ zoom)
  let origin_shift : ℝ := 2 * Real.pi * 6378137 / 2
  (px * res - origin_shift, origin_shift - py * res)

/-- Embeds `TileService.tile_bounds` (tiles.py lines 70-77):
`minx, maxy = pixels_to_meters(tx * 256, ty * 256, zoom)`;
`maxx, miny = pixels_to_meters((tx + 1) * 256, (ty + 1) * 256, zoom)`;
returns `(minx, miny, maxx, maxy)`. -/
noncomputable def tile_bounds (tx ty : ℤ) (zoom : ℕ) : ℝ × ℝ × ℝ × ℝ :=
  let nw := pixels_to_meters ((tx : ℝ) * 256) ((ty : ℝ) * 256) zoom
  let se := pixels_to_meters (((tx : ℝ) + 1) * 256) (((ty : ℝ) + 1) * 256) zoom
  (nw.1, se.2, se.1, nw.2)

/-- The mercator resolution at a zoom level is positive. -/
theorem res_pos (zoom : ℕ) : 0 < (2 * Real.pi * 6378137) / (256 * 2 ^ zoom : ℝ) := by
  positivity

end WeatherArena

namespace WeatherArena

/-- **C1.** `tileBounds(x, y, zoom)` returns `(minX, minY, maxX, maxY)` with
`(minX, maxY) = pixelToMeters(x·256, y·256, zoom)` and
`(maxX, minY) = pixelToMeters((x+1)·256, (y+1)·256, zoom)`, and
`pixelToMeters(px, py, zoom) = (px·res − shift, shift − py·res)` with
`res = (2·π·R) / (256·2^zoom)`, `R = 6378137`, `shift = 2·π·R / 2`. -/
theorem tile_bounds_pixelToMeters_formula (x y : ℤ) (zoom : ℕ) :
    tile_bounds x y zoom =
      ((pixels_to_meters ((x : ℝ) * 256) ((y : ℝ) * 256) zoom).1,
       (pixels_to_meters (((x : ℝ) + 1) * 256) (((y : ℝ) + 1) * 256) zoom).2,
       (pixels_to_meters (((x : ℝ) + 1) * 256) (((y : ℝ) + 1) * 256) zoom).1,
       (pixels_to_meters ((x : ℝ) * 256) ((y : ℝ) * 256) zoom).2) ∧
    ∀ px py : ℝ,
      pixels_to_meters px py zoom =
        (px * ((2 * Real.pi * 6378137) / (256 * 2 ^ zoom)) - 2 * Real.pi * 6378137 / 2,
         2 * Real.pi * 6378137 / 2 - py * ((2 * Real.pi * 6378137) / (256 * 2 ^ zoom))) := by
  exact ⟨rfl, fun px py => rfl⟩

/-- **C6.** Horizontally adjacent tiles at the same zoom share an exact boundary
coordinate: `tileBounds(x, y, z).maxX = tileBounds(x+1, y, z).minX`. -/
theorem tile_bounds_adjacent_share_edge (x y : ℤ) (z : ℕ) :
    (tile_bounds x y z).2.2.1 = (tile_bounds (x + 1) y z).1 := by
  simp only [tile_bounds, pixels_to_meters]
  push_cast
  ring

/-- **C7.** For `x, y ∈ [0, 2^z)`, the bounds of `tileBounds(x, y, z)` satisfy
`minX < maxX` and `minY < maxY`. -/
theorem tile_bounds_ordered (z : ℕ) (x y : ℤ)
    (hx0 : 0 ≤ x) (hx1 : x < 2 ^ z) (hy0 : 0 ≤ y) (hy1 : y < 2 ^ z) :
    (tile_bounds x y z).1 < (tile_bounds x y z).2.2.1 ∧
    (tile_bounds x y z).2.1 < (tile_bounds x y z).2.2.2 := by
  have hres := res_pos z
  simp only [tile_bounds, pixels_to_meters]
  constructor
  · have h : (x : ℝ) * 256 < ((x : ℝ) + 1) * 256 := by nlinarith
    nlinarith
  · have h : (y : ℝ) * 256 < ((y : ℝ) + 1) * 256 := by nlinarith
    nlinarith

/-- Witness for C7 at the single zoom-0 tile `(z, x, y) = (0, 0, 0)`. -/
theorem tile_bounds_ordered_witness :
    (0 : ℤ) ≤ 0 ∧ (0 : ℤ) < 2 ^ 0 ∧
    ((tile_bounds 0 0 0).1 < (tile_bounds 0 0 0).2.2.1 ∧
     (tile_bounds 0 0 0).2.1 < (tile_bounds 0 0 0).2.2.2) :=
  ⟨le_refl 0, by norm_num, tile_bounds_ordered 0 0 0 (le_refl 0) (by norm_num)
    (le_refl 0) (by norm_num)⟩

/-- **C10.** `pixelToMeters` is strictly increasing in `px` (first output) and
strictly decreasing in `py` (second output), at every zoom. -/
theorem pixels_to_meters_monotone (zoom : ℕ) (px₁ px₂ py₁ py₂ p q : ℝ) :
    (px₁ < px₂ → (pixels_to_meters px₁ q zoom).1 < (pixels_to_meters px₂ q zoom).1) ∧
    (py₁ < py₂ → (pixels_to_meters p py₂ zoom).2 < (pixels_to_meters p py₁ zoom).2) := by
  have hres := res_pos zoom
  simp only [pixels_to_meters]
  constructor
  · intro h
    nlinarith
  · intro h
    nlinarith

/-- Witness for C10 at pixel coordinates `0 < 1`, zoom 0. -/
theorem pixels_to_meters_monotone_witness :
    (0 : ℝ) < 1 ∧
    (pixels_to_meters 0 0 0).1 < (pixels_to_meters 1 0 0).1 ∧
    (pixels_to_meters 0 1 0).2 < (pixels_to_meters 0 0 0).2 :=
  ⟨by norm_num,
   (pixels_to_meters_monotone 0 0 1 0 1 0 0).1 (by norm_num),
   (pixels_to_meters_monotone 0 0 1 0 1 0 0).2 (by norm_num)⟩

end WeatherArena

namespace WeatherArena

/-! ## Data model: gridded datasets

An `xr.Dataset` as the tile path consumes it: an ordered collection of named
scalar fields (`data_vars`), each field a list of grid values.  `v in ds`
is membership among the variable names; `ds[v]` looks the name up;
`list(ds.data_vars)[0]` is the first declared variable in enumeration order. -/

/-- A gridded dataset: named scalar fields in declaration order. -/
structure Dataset where
  data_vars : List (String × List ℚ)
deriving DecidableEq, Repr

/-! ## GridCache (`backend/app/services/weather.py`)

`GRID_CACHE` is a module-level dict from key to dataset; `get_model_grid`
reads and writes it.  The dict is modelled as an association list (later
insertions shadow earlier ones under `List.lookup`), threaded as explicit
state, together with a counter of upstream fetch invocations.  The fetch
collaborator (`Herbie(...)` + `H.xarray(...)`, weather.py lines 117-121) is a
parameter `fetch : String → Option Dataset`; `none` stands for the except
branch (fetch raised or returned nothing), in which case `get_model_grid`
logs and returns `None` (weather.py lines 128-130). -/

/-- The state visible to `get_model_grid`: the `GRID_CACHE` dict and a ghost
counter of upstream fetch invocations. -/
structure GridState where
  cache : List (String × Dataset)
  fetchCount : ℕ
deriving DecidableEq, Repr

/-- Embeds `WeatherService.get_model_grid` (weather.py lines 103-130):
`key = f"{model}_latest"`; on hit return `GRID_CACHE[key]`; on miss invoke
the fetch collaborator, store the dataset under `key` on success, return
`None` and leave the cache untouched on failure. -/
def get_model_grid (fetch : String → Option Dataset) (model : String)
    (st : GridState) : Option Dataset × GridState :=
  let key := model ++ "_latest"
  match st.cache.lookup key with
  | some ds => (some ds, st)
  | none =>
    match fetch model with
    | some ds =>
        (some ds, { cache := (key, ds) :: st.cache, fetchCount := st.fetchCount + 1 })
    | none => (none, { st with fetchCount := st.fetchCount + 1 })

/-- **C2.** If `get_model_grid` is called twice in sequence for the same model
with the first call succeeding, the second call returns the same dataset from
the cache without invoking the fetch collaborator, and the two calls together
invoke it at most once. -/
theorem get_model_grid_cached_second_call (fetch : String → Option Dataset)
    (model : String) (st : GridState)
    (h : (get_model_grid fetch model st).1 ≠ none) :
    get_model_grid fetch model (get_model_grid fetch model st).2 =
      ((get_model_grid fetch model st).1, (get_model_grid fetch model st).2) ∧
    (get_model_grid fetch model st).2.fetchCount ≤ st.fetchCount + 1 := by
  unfold get_model_grid at h ⊢
  cases hc : st.cache.lookup (model ++ "_latest") with
  | some ds => simp [hc]
  | none =>
    cases hf : fetch model with
    | none => simp [hc, hf] at h
    | some ds => simp [hc, hf]

/-- Witness for C2: a succeeding fetch for `"gfs"` against an empty cache. -/
theorem get_model_grid_cached_second_call_witness :
    (get_model_grid (fun _ => some ⟨[("t2m", [300])]⟩) "gfs" ⟨[], 0⟩).1 ≠ none ∧
    (get_model_grid (fun _ => some ⟨[("t2m", [300])]⟩) "gfs"
        (get_model_grid (fun _ => some ⟨[("t2m", [300])]⟩) "gfs" ⟨[], 0⟩).2 =
      ((get_model_grid (fun _ => some ⟨[("t2m", [300])]⟩) "gfs" ⟨[], 0⟩).1,
       (get_model_grid (fun _ => some ⟨[("t2m", [300])]⟩) "gfs" ⟨[], 0⟩).2) ∧
     (get_model_grid (fun _ => some ⟨[("t2m", [300])]⟩) "gfs" ⟨[], 0⟩).2.fetchCount
       ≤ 0 + 1) :=
  ⟨by decide,
   get_model_grid_cached_second_call (fun _ => some ⟨[("t2m", [300])]⟩) "gfs" ⟨[], 0⟩
     (by decide)⟩

/-- **C3.** On a cache miss whose fetch fails, `get_model_grid` returns `none`
(`DataUnavailable`), leaves the cache unchanged, and a subsequent call for the
same model invokes the fetch collaborator again. -/
theorem get_model_grid_failed_fetch_not_cached (fetch : String → Option Dataset)
    (model : String) (st : GridState)
    (hmiss : st.cache.lookup (model ++ "_latest") = none)
    (hfail : fetch model = none) :
    (get_model_grid fetch model st).1 = none ∧
    (get_model_grid fetch model st).2.cache = st.cache ∧
    (get_model_grid fetch model st).2.fetchCount = st.fetchCount + 1 ∧
    (get_model_grid fetch model (get_model_grid fetch model st).2).2.fetchCount =
      st.fetchCount + 2 := by
  unfold get_model_grid
  simp [hmiss, hfail]

/-- Witness for C3: a failing fetch for `"gfs"` against an empty cache. -/
theorem get_model_grid_failed_fetch_not_cached_witness :
    (GridState.mk [] 0).cache.lookup ("gfs" ++ "_latest") = none ∧
    ((get_model_grid (fun _ => none) "gfs" ⟨[], 0⟩).1 = none ∧
     (get_model_grid (fun _ => none) "gfs" ⟨[], 0⟩).2.cache = ([] : List (String × Dataset)) ∧
     (get_model_grid (fun _ => none) "gfs" ⟨[], 0⟩).2.fetchCount = 0 + 1 ∧
     (get_model_grid (fun _ => none) "gfs"
         (get_model_grid (fun _ => none) "gfs" ⟨[], 0⟩).2).2.fetchCount = 0 + 2) :=
  ⟨rfl, get_model_grid_failed_fetch_not_cached (fun _ => none) "gfs" ⟨[], 0⟩ rfl rfl⟩

end WeatherArena

namespace WeatherArena

/-! ## UnitNormalizer (`backend/app/routers/tiles.py` lines 32-34)

`if var.mean() > 200: var = var - 273.15`.  Field values are modelled as
rationals, so every value is finite and `var.mean()` (which skips non-finite
entries) is the plain arithmetic mean; `var - 273.15` subtracts elementwise. -/

/-- The arithmetic mean of the field's values (`var.mean()`).  Division by
zero in `ℚ` yields `0`, matching the behaviour of the guard `mean > 200` on an
empty field (a NaN mean compares false in Python). -/
def fieldMean (vs : List ℚ) : ℚ := vs.sum / (vs.length : ℚ)

/-- Embeds the Kelvin-detection step of `get_tile`:
`if var.mean() > 200: var = var - 273.15`. -/
def normalize (vs : List ℚ) : List ℚ :=
  if fieldMean vs > 200 then vs.map (fun v => v - 273.15) else vs

/-- **C4.** `normalize` computes the arithmetic mean of the (all-finite) field;
if the mean exceeds 200, every output value is the corresponding input value
minus exactly 273.15; otherwise the output is the input unchanged. -/
theorem normalize_kelvin_heuristic (vs : List ℚ) :
    (200 < fieldMean vs →
      ∀ i : ℕ, (normalize vs)[i]? = Option.map (fun v => v - 273.15) vs[i]?) ∧
    (¬ 200 < fieldMean vs → normalize vs = vs) := by
  constructor
  · intro h i
    simp [normalize, h]
  · intro h
    simp [normalize, h]

/-- Witness for C4 on a Kelvin-like field `[280]` (mean 280) and a
Celsius-like field `[15]` (mean 15). -/
theorem normalize_kelvin_heuristic_witness :
    (200 < fieldMean [280] ∧ (normalize [280])[0]? = some (6.85 : ℚ)) ∧
    (¬ 200 < fieldMean [15] ∧ normalize [15] = [15]) := by
  refine ⟨⟨by norm_num [fieldMean], ?_⟩, ⟨by norm_num [fieldMean], ?_⟩⟩
  · have h := (normalize_kelvin_heuristic [280]).1 (by norm_num [fieldMean]) 0
    rw [h]
    norm_num
  · exact (normalize_kelvin_heuristic [15]).2 (by norm_num [fieldMean])

/-! ## FieldResolver (`backend/app/routers/tiles.py` lines 20-28)

```
var = None
for v in ['t2m', 't', 'tmp', '2t']:
    if v in ds:
        var = ds[v]
        break
if var is None:
    var = ds[list(ds.data_vars)[0]]
```
The first alias present in the dataset wins; otherwise the first declared
variable; with zero declared variables `list(ds.data_vars)[0]` raises
(`NoFieldFound`), modelled as `none`. -/

/-- The fixed priority list of aliases for 2-meter temperature. -/
def tempAliases : List String := ["t2m", "t", "tmp", "2t"]

/-- Embeds the variable-selection logic of `get_tile` (tiles router lines
20-28).  `none` models the uncaught `IndexError` on a dataset with zero
declared fields (the spec's `NoFieldFound`). -/
def resolve (ds : Dataset) : Option (List ℚ) :=
  match tempAliases.find? (fun v => (ds.data_vars.lookup v).isSome) with
  | some v => ds.data_vars.lookup v
  | none =>
    match ds.data_vars.head? with
    | some p => ds.data_vars.lookup p.1
    | none => none

/-- `find?` over a list whose prefix fails the predicate returns the first
success. -/
theorem find?_append_first {α : Type} (p : α → Bool) (l₁ l₂ : List α) (a : α)
    (h₁ : ∀ b ∈ l₁, p b = false) (ha : p a = true) :
    (l₁ ++ a :: l₂).find? p = some a := by
  induction l₁ with
  | nil => simp [List.find?, ha]
  | cons b t ih =>
    have hb : p b = false := h₁ b (by simp)
    simp only [List.cons_append, List.find?, hb]
    exact ih fun c hc => h₁ c (by simp [hc])

/-- Looking up the head key of an association list yields the head value. -/
theorem lookup_head {β : Type} (n : String) (f : β) (t : List (String × β)) :
    List.lookup n ((n, f) :: t) = some f := by
  simp [List.lookup]

/-- **C5.** `resolve` returns the field of the first alias (in the fixed
priority order `t2m, t, tmp, 2t`) present among the dataset's named fields;
if no alias matches, it returns the dataset's first declared field; and it
fails (`NoFieldFound`) if and only if the dataset declares zero fields. -/
theorem resolve_spec (ds : Dataset) :
    (∀ l₁ a l₂, tempAliases = l₁ ++ a :: l₂ →
      (∀ b ∈ l₁, ds.data_vars.lookup b = none) →
      (ds.data_vars.lookup a).isSome = true →
      resolve ds = ds.data_vars.lookup a) ∧
    ((∀ a ∈ tempAliases, ds.data_vars.lookup a = none) →
      ∀ n f t, ds.data_vars = (n, f) :: t → resolve ds = some f) ∧
    (resolve ds = none ↔ ds.data_vars = []) := by
  refine ⟨?_, ?_, ?_⟩
  · intro l₁ a l₂ hsplit hpre ha
    have hf : tempAliases.find? (fun v => (ds.data_vars.lookup v).isSome) = some a := by
      rw [hsplit]
      exact find?_append_first _ l₁ l₂ a
        (fun b hb => by simp [hpre b hb]) ha
    simp [resolve, hf]
  · intro hnone n f t hds
    have hf : tempAliases.find? (fun v => (ds.data_vars.lookup v).isSome) = none := by
      rw [List.find?_eq_none]
      intro a ha
      simp [hnone a ha]
    unfold resolve
    rw [hf]
    simp [hds, List.lookup]
  · constructor
    · intro hres
      by_contra hne
      cases hds : ds.data_vars with
      | nil => exact hne hds
      | cons p t =>
        cases hf : tempAliases.find? (fun v => (ds.data_vars.lookup v).isSome) with
        | some v =>
          have hv := List.find?_some hf
          simp only [resolve, hf] at hres
          rw [hres] at hv
          simp at hv
        | none =>
          obtain ⟨n, f⟩ := p
          unfold resolve at hres
          rw [hf] at hres
          simp [hds, List.lookup] at hres
    · intro hds
      have hl : ∀ v : String, ds.data_vars.lookup v = none := by
        intro v
        simp [hds]
      have hf : tempAliases.find? (fun v => (ds.data_vars.lookup v).isSome) = none := by
        rw [List.find?_eq_none]
        intro a _
        simp [hl a]
      unfold resolve
      rw [hf]
      simp [hds]

/-- Witness for C5: the alias `t2m` (first in priority order, empty prefix)
wins over a later-declared `t`; a dataset with no alias falls back to its
first field; the empty dataset fails. -/
theorem resolve_spec_witness :
    (resolve ⟨[("t", [1]), ("t2m", [2])]⟩ = some [2]) ∧
    (resolve ⟨[("u10", [7]), ("v10", [8])]⟩ = some [7]) ∧
    (resolve ⟨[]⟩ = none) := by
  refine ⟨?_, ?_, ?_⟩
  · have h := (resolve_spec ⟨[("t", [1]), ("t2m", [2])]⟩).1 [] "t2m" ["t", "tmp", "2t"]
      rfl (by intro b hb; simp at hb) (by decide)
    rw [h]
    decide
  · exact (resolve_spec ⟨[("u10", [7]), ("v10", [8])]⟩).2.1
      (by decide) "u10" [7] [("v10", [8])] rfl
  · exact (resolve_spec ⟨[]⟩).2.2.2 rfl

end WeatherArena

namespace WeatherArena

/-! ## ImageEncoder (`backend/app/services/tiles.py` lines 53-68)

The tail of `TileService.generate_tile`: matplotlib writes a transparent PNG
of engine-determined size into a buffer, PIL reopens it, resizes it to exactly
256×256 with LANCZOS resampling, and saves it as PNG.  matplotlib and PIL are
external libraries, modelled by their documented contracts: `savefig(...,
transparent=True)` yields an RGBA canvas whose dimensions are chosen by the
engine (left as inputs here, since `bbox_inches='tight'` makes them vary);
`Image.resize((w, h))` returns an image of exactly the requested size in the
same mode; `save(format='PNG')` encodes losslessly with alpha support. -/

/-- A decoded raster canvas: dimensions plus whether it carries an alpha
channel. -/
structure Canvas where
  width : ℕ
  height : ℕ
  hasAlpha : Bool
deriving DecidableEq, Repr

/-- Models the contract of PIL `Image.resize((w, h), Image.Resampling.LANCZOS)`
(tiles.py line 62): the result has exactly the requested dimensions and keeps
the source mode. -/
def Canvas.resizeTo (c : Canvas) (w h : ℕ) : Canvas :=
  { c with width := w, height := h }

/-- Models the contract of `plt.savefig(buf, format='png', transparent=True,
bbox_inches='tight', pad_inches=0)` (tiles.py line 55): an RGBA canvas whose
dimensions `w × h` are determined by the rendering engine. -/
def savefig_transparent (w h : ℕ) : Canvas :=
  { width := w, height := h, hasAlpha := true }

/-- Image container formats the encoder can emit. -/
inductive ImgFormat where
  | png
deriving DecidableEq, Repr

/-- PNG is a lossless format. -/
def ImgFormat.lossless : ImgFormat → Bool
  | .png => true

/-- PNG supports an alpha channel. -/
def ImgFormat.supportsAlpha : ImgFormat → Bool
  | .png => true

/-- An encoded image: container format plus the decoded canvas it holds. -/
structure EncodedImage where
  format : ImgFormat
  width : ℕ
  height : ℕ
  hasAlpha : Bool
deriving DecidableEq, Repr

/-- Embeds the encoding tail of `TileService.generate_tile` (tiles.py lines
53-68): reopen the savefig buffer, force 256×256 via PIL resize, save as PNG. -/
def encode_tile (native : Canvas) : EncodedImage :=
  let image := native.resizeTo 256 256
  { format := .png, width := image.width, height := image.height,
    hasAlpha := image.hasAlpha }

/-- Embeds `TileService.generate_tile` output as a function of the rendering
engine's native canvas dimensions (which vary under `bbox_inches='tight'`). -/
def generate_tile (nativeW nativeH : ℕ) : EncodedImage :=
  encode_tile (savefig_transparent nativeW nativeH)

/-- **C9.** For every native canvas the engine produces, `generate_tile`
succeeds (it is total) and returns an image decodable to exactly 256×256
pixels, in a lossless format supporting an alpha channel, with the canvas's
alpha channel present — regardless of the native dimensions. -/
theorem generate_tile_256_lossless_alpha (nativeW nativeH : ℕ) :
    (generate_tile nativeW nativeH).width = 256 ∧
    (generate_tile nativeW nativeH).height = 256 ∧
    (generate_tile nativeW nativeH).format.lossless = true ∧
    (generate_tile nativeW nativeH).format.supportsAlpha = true ∧
    (generate_tile nativeW nativeH).hasAlpha = true :=
  ⟨rfl, rfl, rfl, rfl, rfl⟩

/-! ## The tile route (`backend/app/routers/tiles.py`, `get_tile`)

`GET /tiles/{model}/{z}/{x}/{y}.png`: fetch the grid (404 when `None`),
resolve the variable (an empty dataset raises outside the `try`, an
unhandled server error), normalize units, render (exceptions inside the
`try` become 500).  The route performs no validation of `x`, `y` against
`z`.  Rendering (matplotlib/cartopy) is a collaborator parameter `render`;
`none` models an exception in the `try` block. -/

/-- The HTTP outcomes of the tile route: a rendered PNG (200), `404 Model
data not found`, or a server error (500, including the unhandled fallback
`IndexError` on an empty dataset). -/
inductive TileResponse where
  | ok (img : EncodedImage)
  | notFound
  | serverError
deriving DecidableEq, Repr

/-- A response is a client error exactly when it is the 404 branch — the only
4xx status the route produces. -/
def TileResponse.isClientError : TileResponse → Bool
  | .notFound => true
  | _ => false

/-- The tile coordinate invariant of the spec's data model:
`x, y ∈ [0, 2^z)`. -/
def inRange (z : ℕ) (x y : ℤ) : Prop :=
  0 ≤ x ∧ x < 2 ^ z ∧ 0 ≤ y ∧ y < 2 ^ z

instance (z : ℕ) (x y : ℤ) : Decidable (inRange z x y) := by
  unfold inRange
  infer_instance

/-- Embeds the route handler `get_tile` (tiles router lines 7-40): grid
lookup, variable resolution, Kelvin normalization, rendering.  No coordinate
validation appears anywhere in the handler. -/
def get_tile (fetch : String → Option Dataset)
    (render : List ℚ → ℕ → ℤ → ℤ → Option EncodedImage)
    (model : String) (z : ℕ) (x y : ℤ) (st : GridState) :
    TileResponse × GridState :=
  let r := get_model_grid fetch model st
  match r.1 with
  | none => (.notFound, r.2)
  | some ds =>
    match resolve ds with
    | none => (.serverError, r.2)
    | some field =>
      match render (normalize field) z x y with
      | some img => (.ok img, r.2)
      | none => (.serverError, r.2)

/-- **C8, counterexample.** At `(z, x, y) = (0, 5, 0)` — out of range, since
`2^0 = 1` — with an available grid and a succeeding renderer, the route does
not fail as a client error: it renders and returns the tile. -/
theorem get_tile_out_of_range_rendered_cex :
    ¬ inRange 0 5 0 ∧
    (get_tile (fun _ => some ⟨[("t2m", [300])]⟩)
        (fun _ _ _ _ => some (generate_tile 300 300)) "gfs" 0 5 0
        ⟨[], 0⟩).1.isClientError = false ∧
    (get_tile (fun _ => some ⟨[("t2m", [300])]⟩)
        (fun _ _ _ _ => some (generate_tile 300 300)) "gfs" 0 5 0
        ⟨[], 0⟩).1 = TileResponse.ok (generate_tile 300 300) := by
  refine ⟨by decide, ?_, ?_⟩ <;> decide

/-- **C8, amended.** The route performs no coordinate validation: for an
out-of-range `(x, y)` it proceeds exactly as for any request — the only
client error it produces is 404 for an unavailable grid, and when the grid is
available, resolution succeeds and rendering succeeds, the tile is rendered
and returned. -/
theorem get_tile_out_of_range_processed (fetch : String → Option Dataset)
    (render : List ℚ → ℕ → ℤ → ℤ → Option EncodedImage)
    (model : String) (z : ℕ) (x y : ℤ) (st : GridState)
    (hout : ¬ inRange z x y) :
    ((get_tile fetch render model z x y st).1.isClientError = true ↔
      (get_model_grid fetch model st).1 = none) ∧
    (∀ ds field img, (get_model_grid fetch model st).1 = some ds →
      resolve ds = some field → render (normalize field) z x y = some img →
      (get_tile fetch render model z x y st).1 = .ok img) := by
  constructor
  · cases hr : (get_model_grid fetch model st).1 with
    | none => simp [get_tile, hr, TileResponse.isClientError]
    | some ds =>
      cases hres : resolve ds with
      | none => simp [get_tile, hr, hres, TileResponse.isClientError]
      | some field =>
        cases hrender : render (normalize field) z x y with
        | none => simp [get_tile, hr, hres, hrender, TileResponse.isClientError]
        | some img => simp [get_tile, hr, hres, hrender, TileResponse.isClientError]
  · intro ds field img hr hres hrender
    simp [get_tile, hr, hres, hrender]

/-- Witness for the amended C8 at the out-of-range request `(0, 5, 0)` with an
available grid. -/
theorem get_tile_out_of_range_processed_witness :
    ¬ inRange 0 5 0 ∧
    ((get_tile (fun _ => some ⟨[("2t", [280])]⟩)
        (fun _ _ _ _ => some (generate_tile 260 260)) "hrrr" 0 5 0
        ⟨[], 0⟩).1.isClientError = true ↔
      (get_model_grid (fun _ => some ⟨[("2t", [280])]⟩) "hrrr" ⟨[], 0⟩).1 = none) :=
  ⟨by decide,
   (get_tile_out_of_range_processed (fun _ => some ⟨[("2t", [280])]⟩)
     (fun _ _ _ _ => some (generate_tile 260 260)) "hrrr" 0 5 0 ⟨[], 0⟩
     (by decide)).1⟩

end WeatherArena
